import Mathlib

/-!
# Verification of the legal-information chatbot (`app.py`)

A shallow embedding of the chatbot's request-answering logic:

* the intent layer (`is_emergency`, `is_greeting`, `wants_lawyer`),
* the TF-IDF retrieval layer (`best_match` over the ten knowledge-base
  entries, scikit-learn `TfidfVectorizer(lowercase=True,
  stop_words="english", ngram_range=(1,2))` followed by
  `cosine_similarity`),
* the response chooser `safe_answer`, and
* the `/api/ask` request handler `ask`.

Python's float arithmetic is embedded as exact real arithmetic (`ℝ`);
the combinatorial layer (tokenisation, n-grams, counts, document
frequencies) is kept computable.  Python's `str.lower` and the regex
classes `\w`/`\b` are modelled at ASCII granularity, which is exact for
every keyword, pattern and knowledge-base text in the program.
-/

namespace LegalBot

set_option maxRecDepth 100000

/-! ## Character and string utilities -/

/-- ASCII word character, the `\w` class of the program's regexes
(letters, digits, underscore). -/
def isWordChar (c : Char) : Bool := c.isAlphanum || c == '_'

/-- Python `str.lower` (ASCII granularity). -/
def lowerStr (s : String) : String := String.mk (s.data.map Char.toLower)

/-- Character-list equality by code point (plain string equality,
written out so that evaluating it stays cheap). -/
def beqChars : List Char → List Char → Bool
  | [], [] => true
  | a :: as, b :: bs => a.toNat == b.toNat && beqChars as bs
  | _, _ => false

/-- String equality by code points. -/
def beqStr (a b : String) : Bool := beqChars a.data b.data

/-- If `kw` matches the beginning of `l` case-insensitively (`kw` is
already lowercase), return the rest of `l`. -/
def dropMatch : List Char → List Char → Option (List Char)
  | [], l => some l
  | _ :: _, [] => none
  | a :: as, b :: bs => if a == Char.toLower b then dropMatch as bs else none

/-- `kw` is a prefix of `l` (case-insensitively) with word boundaries on
both sides: the previous character `prev` (none at the start of the
text) and the character after the match are not word characters. -/
def hereMatch (kw : List Char) (prev : Option Char) (l : List Char) : Bool :=
  match dropMatch kw l with
  | some rest =>
    (match prev with
     | none => true
     | some c => !isWordChar c) &&
    (match rest with
     | [] => true
     | c :: _ => !isWordChar c)
  | none => false

/-- Scan every position of the text for a word-boundary match of `kw`. -/
def wordSearch (kw : List Char) : Option Char → List Char → Bool
  | prev, [] => hereMatch kw prev []
  | prev, c :: cs => hereMatch kw prev (c :: cs) || wordSearch kw (some c) cs

/-- `re.search(r"\b(kw)\b", text, re.I)` for a single literal
alternative `kw` (given in lowercase). -/
def wordMatch (kw text : String) : Bool := wordSearch kw.data none text.data

/-- `kw` occurs in `hay` as a prefix (case-sensitively). -/
def prefixAt : List Char → List Char → Bool
  | [], _ => true
  | _ :: _, [] => false
  | a :: as, b :: bs => a == b && prefixAt as bs

/-- Python's `kw in hay` substring test. -/
def substrAt : List Char → List Char → Bool
  | n, [] => n.isEmpty
  | n, b :: bs => prefixAt n (b :: bs) || substrAt n bs

/-- Python's `needle in hay` on strings. -/
def substrOf (needle hay : String) : Bool := substrAt needle.data hay.data

/-! ## Intent layer (`app.py` lines 71–81) -/

/-- `EMERGENCY_WORDS` (a Python set; only membership is used). -/
def EMERGENCY_WORDS : List String :=
  ["suicide", "self harm", "self-harm", "violence", "immediate danger",
   "emergency", "threat"]

/-- `is_emergency`: some emergency word is a substring of the lowercased
text. -/
def is_emergency (text : String) : Bool :=
  EMERGENCY_WORDS.any (fun w => substrOf w (lowerStr text))

/-- `is_greeting`: `re.search(r"\b(hi|hello|hey|hola|namaste)\b", text, re.I)`. -/
def is_greeting (text : String) : Bool :=
  ["hi", "hello", "hey", "hola", "namaste"].any (fun w => wordMatch w text)

/-- `wants_lawyer`:
`re.search(r"\b(lawyer|attorney|advocate|legal counsel|legal aid)\b", text, re.I)`. -/
def wants_lawyer (text : String) : Bool :=
  ["lawyer", "attorney", "advocate", "legal counsel", "legal aid"].any
    (fun w => wordMatch w text)

/-! ## Knowledge base (`app.py` lines 20–61) -/

/-- `KB`: the fixed ordered list of question/answer pairs, verbatim. -/
def KB : List (String × String) :=
  [("What is a contract?",
    "A contract is an agreement between two or more parties that is intended to be legally binding. Typically it requires offer, acceptance, consideration, and intention to create legal relations."),
   ("When is a contract enforceable?",
    "In general, a contract is enforceable when the essential elements are present (offer, acceptance, consideration, capacity, lawful purpose) and any required formalities are met (e.g., writing when mandated by law)."),
   ("What is consideration in a contract?",
    "Consideration is something of value exchanged between parties (e.g., money, goods, services, a promise) that supports a contract."),
   ("What is negligence?",
    "Negligence is a failure to exercise reasonable care, resulting in damage or injury to another. A negligence claim typically requires duty, breach, causation, and damages."),
   ("What should I do if I am arrested?",
    "Stay calm. Ask if you are free to leave. If not, you can state your right to remain silent and request a lawyer. Do not resist. Laws vary by jurisdiction; contact a licensed attorney."),
   ("What is GDPR?",
    "The General Data Protection Regulation (GDPR) is an EU law on data protection and privacy. It sets rules on how personal data is processed and gives individuals certain rights."),
   ("What is intellectual property?",
    "Intellectual property (IP) covers creations of the mind such as inventions, literary and artistic works, designs, symbols, names and images. Main types include patents, trademarks, and copyrights."),
   ("How do I register a trademark?",
    "Trademark registration steps vary by country, but often include: searching for existing marks, filing an application with the trademarks office, responding to examinations/oppositions, and paying fees."),
   ("What is a non-disclosure agreement (NDA)?",
    "An NDA is a contract that restricts one or more parties from disclosing confidential information to others. It can be mutual or one-way and should define scope, permitted use, term, and remedies."),
   ("How do I make a simple will?",
    "Laws vary widely. Generally you identify yourself, revoke prior wills, name an executor, describe how to distribute assets, sign with required witnesses, and follow formalities. Consult a local lawyer.")]

/-- The canned response strings of `safe_answer` and the `/api/ask`
handler (`app.py` lines 93–97, 101, 105–108, 113–114, 231). -/
def safetyMessage : String :=
  "If you or someone else is in immediate danger, please contact local emergency services right now. If this is about self-harm or crisis, reach out to your local suicide prevention or mental health helpline. You are not alone, and help is available."

/-- The fixed greeting response (`app.py` line 101). -/
def greetingMessage : String :=
  "Hello! I’m a legal information bot. Ask me general questions (e.g., contracts, IP, privacy). I can’t provide legal advice."

/-- The fixed lawyer-referral response (`app.py` lines 105–108). -/
def referralMessage : String :=
  "I can only provide general legal information. For advice on your specific situation, consider consulting a licensed lawyer in your jurisdiction (e.g., your local bar association’s referral service or accredited legal aid clinics)."

/-- The fixed low-confidence fallback response (`app.py` lines 113–114). -/
def fallbackMessage : String :=
  "I’m not confident I have an answer to that. Laws differ by jurisdiction. Consider contacting a licensed attorney or a local legal aid clinic."

/-- The fixed missing-question prompt (`app.py` line 231). -/
def promptMessage : String := "Please type a question."

/-! ## Tokenisation (scikit-learn `TfidfVectorizer`, `app.py` line 65)

`TfidfVectorizer(lowercase=True, stop_words="english", ngram_range=(1,2))`
with the default word analyzer: lowercase the text, extract maximal runs
of word characters keeping those of length at least two (token pattern
`\b\w\w+\b`), drop English stop words, then emit unigrams and bigrams
(bigrams join consecutive surviving tokens with one space). -/

/-- Maximal runs of word characters of a character list (the accumulator
holds the current run, reversed). -/
def tokenRuns : List Char → List Char → List (List Char)
  | [], acc => if acc.isEmpty then [] else [acc.reverse]
  | c :: cs, acc =>
    if isWordChar c then tokenRuns cs (c :: acc)
    else if acc.isEmpty then tokenRuns cs []
    else acc.reverse :: tokenRuns cs []

/-- The token pattern `\b\w\w+\b` applied to the lowercased text. -/
def tokenize (s : String) : List String :=
  ((tokenRuns (lowerStr s).data []).filter (fun t => 2 ≤ t.length)).map
    (fun t => String.mk t)

/-- scikit-learn's built-in English stop word list
(`sklearn.feature_extraction.text.ENGLISH_STOP_WORDS`). -/
def ENGLISH_STOP_WORDS : List String :=
  ["a", "about", "above", "across", "after", "afterwards", "again", "against",
   "all", "almost", "alone", "along", "already", "also", "although", "always",
   "am", "among", "amongst", "amoungst", "amount", "an", "and", "another",
   "any", "anyhow", "anyone", "anything", "anyway", "anywhere", "are",
   "around", "as", "at", "back", "be", "became", "because", "become",
   "becomes", "becoming", "been", "before", "beforehand", "behind", "being",
   "below", "beside", "besides", "between", "beyond", "bill", "both",
   "bottom", "but", "by", "call", "can", "cannot", "cant", "co",
   "con", "could", "couldnt", "cry", "de", "describe", "detail", "do",
   "done", "down", "due", "during", "each", "eg", "eight", "either",
   "eleven", "else", "elsewhere", "empty", "enough", "etc", "even", "ever",
   "every", "everyone", "everything", "everywhere", "except", "few",
   "fifteen", "fifty", "fill", "find", "fire", "first", "five", "for",
   "former", "formerly", "forty", "found", "four", "from", "front", "full",
   "further", "get", "give", "go", "had", "has", "hasnt", "have", "he",
   "hence", "her", "here", "hereafter", "hereby", "herein", "hereupon",
   "hers", "herself", "him", "himself", "his", "how", "however", "hundred",
   "i", "ie", "if", "in", "inc", "indeed", "interest", "into", "is", "it",
   "its", "itself", "keep", "last", "latter", "latterly", "least", "less",
   "ltd", "made", "many", "may", "me", "meanwhile", "might", "mill", "mine",
   "more", "moreover", "most", "mostly", "move", "much", "must", "my",
   "myself", "name", "namely", "neither", "never", "nevertheless", "next",
   "nine", "no", "nobody", "none", "noone", "nor", "not", "nothing", "now",
   "nowhere", "of", "off", "often", "on", "once", "one", "only", "onto",
   "or", "other", "others", "otherwise", "our", "ours", "ourselves", "out",
   "over", "own", "part", "per", "perhaps", "please", "put", "rather", "re",
   "same", "see", "seem", "seemed", "seeming", "seems", "serious", "several",
   "she", "should", "show", "side", "since", "sincere", "six", "sixty",
   "so", "some", "somehow", "someone", "something", "sometime", "sometimes",
   "somewhere", "still", "such", "system", "take", "ten", "than", "that",
   "the", "their", "them", "themselves", "then", "thence", "there",
   "thereafter", "thereby", "therefore", "therein", "thereupon", "these",
   "they", "thick", "thin", "third", "this", "those", "though", "three",
   "through", "throughout", "thru", "thus", "to", "together", "too", "top",
   "toward", "towards", "twelve", "twenty", "two", "un", "under", "until",
   "up", "upon", "us", "very", "via", "was", "we", "well", "were", "what",
   "whatever", "when", "whence", "whenever", "where", "whereafter",
   "whereas", "whereby", "wherein", "whereupon", "wherever", "whether",
   "which", "while", "whither", "who", "whoever", "whole", "whom", "whose",
   "why", "will", "with", "within", "without", "would", "yet", "you",
   "your", "yours", "yourself", "yourselves"]

/-- Drop stop words from a token list (done before n-gram building):
a token is kept when it equals no word of the stop list. -/
def removeStop (ts : List String) : List String :=
  ts.filter (fun t => !(ENGLISH_STOP_WORDS.any (fun w => beqStr t w)))

/-- Bigrams of consecutive tokens, joined by a single space. -/
def bigrams : List String → List String
  | a :: b :: rest => (a ++ " " ++ b) :: bigrams (b :: rest)
  | _ => []

/-- The analyzer: unigrams followed by bigrams of the stop-word-filtered
token list (`ngram_range=(1,2)`). -/
def ngrams (s : String) : List String :=
  let ts := removeStop (tokenize s)
  ts ++ bigrams ts

/-! ## TF-IDF index and cosine similarity (`app.py` lines 63–66, 83–88)

The vectorizer is fitted on `docs` (question and answer joined by one
space).  Entries are indexed by the term string itself rather than by a
vocabulary position: scikit-learn sorts the vocabulary and numbers it,
but every quantity below (norms, dot products, argmax over documents) is
invariant under that renumbering.  Float arithmetic is embedded as exact
real arithmetic.  The defaults of `TfidfVectorizer` apply: smoothed idf
`ln((1+n)/(1+df)) + 1`, raw term counts, L2 normalisation of every row,
and `transform` applies the fitted idf and L2-normalises the query too;
`cosine_similarity` L2-normalises both sides again (a zero vector stays
zero) and takes dot products. -/

/-- `docs = [item["q"] + " " + item["a"] for item in KB]`, as a function
of the knowledge-base list. -/
def docsOf (kb : List (String × String)) : List String :=
  kb.map (fun item => item.1 ++ " " ++ item.2)

/-- The fitted corpus. -/
def docs : List String := docsOf KB

/-- The n-grams of document `i` of the corpus `dl`. -/
def docNgrams (dl : List String) (i : ℕ) : List String := ngrams (dl.getD i "")

/-- The fitted vocabulary: every n-gram of every document. -/
def vocabOf (dl : List String) : Finset String :=
  (((List.range dl.length).map (docNgrams dl)).flatten).toFinset

/-- Raw term count of term `t` in document `i`. -/
def tf (dl : List String) (i : ℕ) (t : String) : ℕ := (docNgrams dl i).count t

/-- Document frequency of term `t` in the corpus. -/
def df (dl : List String) (t : String) : ℕ :=
  (List.range dl.length).countP (fun i => (docNgrams dl i).contains t)

/-- Smoothed inverse document frequency (`smooth_idf=True`):
`ln((1 + n) / (1 + df)) + 1`. -/
noncomputable def idf (dl : List String) (t : String) : ℝ :=
  Real.log ((1 + (dl.length : ℝ)) / (1 + (df dl t : ℝ))) + 1

/-- Unnormalised TF-IDF row of document `i`. -/
noncomputable def rawDoc (dl : List String) (i : ℕ) : String → ℝ :=
  fun t => (tf dl i t : ℝ) * idf dl t

/-- Euclidean norm of a vector over the fitted vocabulary. -/
noncomputable def vecNorm (dl : List String) (v : String → ℝ) : ℝ :=
  Real.sqrt (∑ t ∈ vocabOf dl, v t ^ 2)

/-- L2 normalisation as scikit-learn's `normalize`: a zero vector is
left unchanged. -/
noncomputable def l2normalize (dl : List String) (v : String → ℝ) : String → ℝ :=
  if vecNorm dl v = 0 then v else fun t => v t / vecNorm dl v

/-- `kb_matrix = vectorizer.fit_transform(docs)`: row `i` is the
L2-normalised TF-IDF vector of document `i`, as a function of the corpus. -/
noncomputable def kb_matrixOf (dl : List String) (i : ℕ) : String → ℝ :=
  l2normalize dl (rawDoc dl i)

/-- The startup index `kb_matrix`. -/
noncomputable def kb_matrix : ℕ → String → ℝ := kb_matrixOf docs

/-- Raw term count of term `t` in the query text. -/
def qcount (q t : String) : ℕ := (ngrams q).count t

/-- Unnormalised TF-IDF vector of the query under the fitted idf. -/
noncomputable def rawQuery (dl : List String) (q : String) : String → ℝ :=
  fun t => (qcount q t : ℝ) * idf dl t

/-- `user_vec = vectorizer.transform([user_text])`. -/
noncomputable def user_vec (dl : List String) (q : String) : String → ℝ :=
  l2normalize dl (rawQuery dl q)

/-- Dot product over the fitted vocabulary. -/
noncomputable def dotVocab (dl : List String) (u v : String → ℝ) : ℝ :=
  ∑ t ∈ vocabOf dl, u t * v t

/-- `sklearn.metrics.pairwise.cosine_similarity` of two vectors:
both sides are L2-normalised (zero rows staying zero) and dotted. -/
noncomputable def cosineSim (dl : List String) (u v : String → ℝ) : ℝ :=
  dotVocab dl (l2normalize dl u) (l2normalize dl v)

/-- `sims` computed against an arbitrary index matrix (used by the
state-threaded embedding). -/
noncomputable def simsWith (dl : List String) (matrix : ℕ → String → ℝ)
    (q : String) (i : ℕ) : ℝ :=
  cosineSim dl (user_vec dl q) (matrix i)

/-- `sims = cosine_similarity(user_vec, kb_matrix)[0]` as a function of
the document index. -/
noncomputable def sims (q : String) (i : ℕ) : ℝ := simsWith docs kb_matrix q i

/-- One step of numpy's `argmax` scan: move to `j` only on a strictly
greater value, so the first maximal index wins. -/
noncomputable def amStep (f : ℕ → ℝ) (b j : ℕ) : ℕ := if f b < f j then j else b

/-- `argmax` of `f` over indices `0, …, n-1` (first maximal index). -/
noncomputable def argmaxR (f : ℕ → ℝ) (n : ℕ) : ℕ :=
  (List.range n).foldl (amStep f) 0

/-- `idx = sims.argmax()`. -/
noncomputable def bestIdx (q : String) : ℕ := argmaxR (sims q) docs.length

/-- `best_match`: `(sims[idx], KB[idx])`. -/
noncomputable def best_match (q : String) : ℝ × (String × String) :=
  (sims q (bestIdx q), KB.getD (bestIdx q) ("", ""))

/-! ## `safe_answer` (`app.py` lines 90–115) -/

/-- `safe_answer`: intent checks in priority order, then knowledge-base
retrieval with the 0.15 confidence threshold. -/
noncomputable def safe_answer (user_text : String) : String :=
  if is_emergency user_text then safetyMessage
  else if is_greeting user_text then greetingMessage
  else if wants_lawyer user_text then referralMessage
  else if (best_match user_text).1 < 0.15 then fallbackMessage
  else (best_match user_text).2.2

/-! ## The `/api/ask` handler (`app.py` lines 225–234)

The handler reads the request body with
`request.get_json(force=True, silent=True) or {}` (an unparseable body
or a falsy JSON value becomes the empty dict), takes
`payload.get("question", "")`, strips it, applies `html.unescape`, and
answers the fixed prompt for an empty result; `.get` raises
`AttributeError` when the payload is not a dict, and `.strip()` raises
`AttributeError` when the question value is not a string — Flask turns
an uncaught exception into an HTTP 500 response.  JSON numbers are
embedded as integers: the handler never does arithmetic on them, only
truthiness and type dispatch, for which this is faithful. -/

/-- A parsed JSON value. -/
inductive Json where
  | null
  | bool (b : Bool)
  | num (n : Int)
  | str (s : String)
  | arr (elts : List Json)
  | obj (fields : List (String × Json))

/-- Python truthiness of a JSON-decoded value (`None`, `False`, `0`,
`""`, `[]`, `{}` are falsy). -/
def truthy : Json → Bool
  | .null => false
  | .bool b => b
  | .num n => n != 0
  | .str s => !s.isEmpty
  | .arr l => !l.isEmpty
  | .obj f => !f.isEmpty

/-- Python whitespace, the characters `str.strip()` removes
(ASCII whitespace and the Unicode space characters). -/
def isPySpace (c : Char) : Bool :=
  let n := c.toNat
  (0x9 ≤ n && n ≤ 0xd) || (0x1c ≤ n && n ≤ 0x1f) || n == 0x20 ||
  n == 0x85 || n == 0xa0 || n == 0x1680 || (0x2000 ≤ n && n ≤ 0x200a) ||
  n == 0x2028 || n == 0x2029 || n == 0x202f || n == 0x205f || n == 0x3000

/-- Python `str.strip()`. -/
def pyStrip (s : String) : String :=
  (((s.data.dropWhile isPySpace).reverse.dropWhile isPySpace).reverse).asString

/-! ### `html.unescape` (Python standard library)

Modelled from the CPython implementation: character references are
matched by `&(#[0-9]+;?|#[xX][0-9a-fA-F]+;?|[^\t\n\f <&#;]{1,32};?)`;
numeric references are decoded through the HTML5 numeric-reference
rules (the windows-1252 override table for the C0/C1 range, U+FFFD for
surrogates and out-of-range code points, the invalid-code-point set
dropped); named references use longest-prefix lookup in the HTML5
entity table — here restricted to the core entities, every other name
being left unchanged exactly as `unescape` leaves unknown names.  The
claims below exercise only the numeric path and the empty string. -/

/-- Hexadecimal digit (the regex class `[0-9a-fA-F]`). -/
def isHexDigit (c : Char) : Bool :=
  c.isDigit || ('a' ≤ c && c ≤ 'f') || ('A' ≤ c && c ≤ 'F')

/-- Value of a hexadecimal digit. -/
def hexVal (c : Char) : ℕ :=
  if c.isDigit then c.toNat - 48
  else if 'a' ≤ c && c ≤ 'f' then c.toNat - 87
  else c.toNat - 55

/-- Decimal value of a digit run. -/
def natOfDec (ds : List Char) : ℕ := ds.foldl (fun n c => 10 * n + (c.toNat - 48)) 0

/-- Hexadecimal value of a digit run. -/
def natOfHex (ds : List Char) : ℕ := ds.foldl (fun n c => 16 * n + hexVal c) 0

/-- `html._invalid_charrefs`: numeric references in the C0/C1 range map
to windows-1252 characters (plus `0x00 → U+FFFD` and `0x0d → CR`). -/
def invalidCharrefs : List (ℕ × String) :=
  [(0x00, "�"), (0x0d, "\u000D"), (0x80, "€"), (0x81, "\u0081"),
   (0x82, "‚"), (0x83, "ƒ"), (0x84, "„"), (0x85, "…"),
   (0x86, "†"), (0x87, "‡"), (0x88, "ˆ"), (0x89, "‰"),
   (0x8a, "Š"), (0x8b, "‹"), (0x8c, "Œ"), (0x8d, "\u008D"),
   (0x8e, "Ž"), (0x8f, "\u008F"), (0x90, "\u0090"), (0x91, "‘"),
   (0x92, "’"), (0x93, "“"), (0x94, "”"), (0x95, "•"),
   (0x96, "–"), (0x97, "—"), (0x98, "˜"), (0x99, "™"),
   (0x9a, "š"), (0x9b, "›"), (0x9c, "œ"), (0x9d, "\u009D"),
   (0x9e, "ž"), (0x9f, "Ÿ")]

/-- `html._invalid_codepoints`: decoded to the empty string. -/
def isInvalidCodepoint (n : ℕ) : Bool :=
  (0x1 ≤ n && n ≤ 0x8) || n == 0xb || (0xe ≤ n && n ≤ 0x1f) ||
  (0x7f ≤ n && n ≤ 0x9f) || (0xfdd0 ≤ n && n ≤ 0xfdef) ||
  n % 0x10000 == 0xfffe || n % 0x10000 == 0xffff

/-- `html._replace_charref` on a numeric reference of value `num`. -/
def charrefResult (num : ℕ) : String :=
  match invalidCharrefs.lookup num with
  | some s => s
  | none =>
    if (0xD800 ≤ num && num ≤ 0xDFFF) || 0x10FFFF < num then "�"
    else if isInvalidCodepoint num then ""
    else String.singleton (Char.ofNat num)

/-- The HTML5 named-entity table, restricted to the core entities (the
full CPython table has about two thousand names; unknown names are left
unchanged below, as `unescape` does for names outside its table). -/
def html5Table : List (String × String) :=
  [("amp;", "&"), ("amp", "&"), ("lt;", "<"), ("lt", "<"),
   ("gt;", ">"), ("gt", ">"), ("quot;", "\""), ("quot", "\""),
   ("nbsp;", " ")]

/-- A character the named-reference pattern `[^\t\n\f <&#;]` accepts. -/
def isNameChar (c : Char) : Bool :=
  !(c == '\t' || c == '\n' || c == '\u000C' || c == ' ' || c == '<' ||
    c == '&' || c == '#' || c == ';')

/-- Longest-prefix lookup of a matched name `s` (possibly ending in
`;`) in the entity table: the replacement and the unconsumed tail of
`s`, as in `_replace_charref`. -/
def namedLookup (s : List Char) : Option (String × List Char) :=
  (List.range (s.length + 1)).reverse.findSome? (fun k =>
    if k < 2 then none
    else
      match html5Table.lookup (String.mk (s.take k)) with
      | some rep => some (rep, s.drop k)
      | none => none)

/-- One scan of `re.sub` with `_replace_charref`, fuelled by the text
length (every step consumes at least one character). -/
def unescapeAux : ℕ → List Char → List Char
  | 0, l => l
  | _ + 1, [] => []
  | fuel + 1, '&' :: rest =>
    match rest with
    | '#' :: r2 =>
      match r2 with
      | x :: r3 =>
        if x == 'x' || x == 'X' then
          let ds := r3.takeWhile isHexDigit
          if ds.isEmpty then '&' :: unescapeAux fuel rest
          else
            let after := r3.drop ds.length
            let after2 := if after.head? == some ';' then after.tail else after
            (charrefResult (natOfHex ds)).data ++ unescapeAux fuel after2
        else
          let ds := r2.takeWhile Char.isDigit
          if ds.isEmpty then '&' :: unescapeAux fuel rest
          else
            let after := r2.drop ds.length
            let after2 := if after.head? == some ';' then after.tail else after
            (charrefResult (natOfDec ds)).data ++ unescapeAux fuel after2
      | [] => '&' :: unescapeAux fuel rest
    | _ =>
      let run := rest.takeWhile isNameChar
      let nm := run.take 32
      if nm.isEmpty then '&' :: unescapeAux fuel rest
      else
        let withSemi := nm.length == run.length &&
          (rest.drop nm.length).head? == some ';'
        let s := if withSemi then nm ++ [';'] else nm
        let after := rest.drop s.length
        match namedLookup s with
        | some (rep, extra) => rep.data ++ extra ++ unescapeAux fuel after
        | none => '&' :: s ++ unescapeAux fuel after
  | fuel + 1, c :: rest => c :: unescapeAux fuel rest

/-- Python `html.unescape` (`if "&" not in s: return s`, then the
substitution scan). -/
def unescape (s : String) : String :=
  if substrOf "&" s then (unescapeAux s.data.length s.data).asString else s

/-- `payload.get(key, default)` for a dict payload. -/
def getField (fields : List (String × Json)) (k : String) : Option Json :=
  fields.lookup k

/-- The `/api/ask` handler.  `none` is an unparseable body
(`get_json(force=True, silent=True)` returns `None`).  The result is
`Except.ok (200, answer)` for the normal JSON response and
`Except.error ()` for an uncaught `AttributeError`, which Flask reports
as an HTTP 500 error response. -/
noncomputable def ask (body : Option Json) : Except Unit (ℕ × String) :=
  let payload : Json :=
    match body with
    | none => .obj []
    | some j => if truthy j then j else .obj []
  match payload with
  | .obj fields =>
    match (getField fields "question").getD (.str "") with
    | .str q0 =>
      let question := unescape (pyStrip q0)
      if question.isEmpty then .ok (200, promptMessage)
      else .ok (200, safe_answer question)
    | _ => .error ()
  | _ => .error ()

/-- The request bodies the handler survives: an unparseable body, a
falsy JSON value, or a JSON object whose `question` member, when
present, is a string. -/
def wfBody : Option Json → Bool
  | none => true
  | some j =>
    !truthy j ||
      (match j with
       | .obj fields =>
         (match getField fields "question" with
          | none => true
          | some (.str _) => true
          | some _ => false)
       | _ => false)

/-! ## State-threaded embedding (for the immutability invariant)

The Python process state the request path can reach consists of the
global knowledge base `KB` and the derived index `kb_matrix`.  The
state-threaded variants below mirror each read of those globals and
return the state they were given, exactly as the Python functions,
which contain no assignment to any global. -/

/-- The mutable-in-principle process state: the knowledge base and the
TF-IDF index built at startup. -/
structure ServerState where
  kb : List (String × String)
  matrix : ℕ → String → ℝ

/-- The state after startup: `KB` and `kb_matrix` as fitted on `docs`. -/
noncomputable def initState : ServerState := { kb := KB, matrix := kb_matrix }

/-- `best_match` with the globals it reads threaded explicitly. -/
noncomputable def best_matchSt (s : ServerState) (q : String) :
    (ℝ × (String × String)) × ServerState :=
  let f := simsWith docs s.matrix q
  let i := argmaxR f s.kb.length
  ((f i, s.kb.getD i ("", "")), s)

/-- `safe_answer` with the globals it reads threaded explicitly. -/
noncomputable def safe_answerSt (s : ServerState) (q : String) :
    String × ServerState :=
  if is_emergency q then (safetyMessage, s)
  else if is_greeting q then (greetingMessage, s)
  else if wants_lawyer q then (referralMessage, s)
  else
    let r := best_matchSt s q
    if r.1.1 < 0.15 then (fallbackMessage, r.2) else (r.1.2.2, r.2)

/-! ## Intent-priority theorems (claims C1–C4) -/

/-- C1: for every input containing an emergency keyword as a
case-insensitive substring (`is_emergency`), `safe_answer` returns
exactly the fixed safety message, regardless of any other content of
the input. -/
theorem c1_emergency_fixed_safety (q : String) (h : is_emergency q = true) :
    safe_answer q = safetyMessage := by
  simp [safe_answer, h]

/-- Witness for C1 at the concrete input `"emergency"`. -/
theorem c1_emergency_fixed_safety_witness :
    safe_answer "emergency" = safetyMessage :=
  c1_emergency_fixed_safety "emergency" (by decide)

/-- C4: for every input matching a greeting word as a whole word,
`safe_answer` returns the fixed greeting message when no emergency
keyword is present, and the fixed safety message when one is. -/
theorem c4_greeting_unless_emergency (q : String) (h : is_greeting q = true) :
    (is_emergency q = false ∧ safe_answer q = greetingMessage) ∨
    (is_emergency q = true ∧ safe_answer q = safetyMessage) := by
  cases he : is_emergency q
  · exact Or.inl ⟨rfl, by simp [safe_answer, he, h]⟩
  · exact Or.inr ⟨rfl, by simp [safe_answer, he]⟩

/-- Witness for C4 at the concrete input `"hello"`. -/
theorem c4_greeting_unless_emergency_witness :
    (is_emergency "hello" = false ∧ safe_answer "hello" = greetingMessage) ∨
    (is_emergency "hello" = true ∧ safe_answer "hello" = safetyMessage) :=
  c4_greeting_unless_emergency "hello" (by decide)

/-- C3 counterexample: `"hi lawyer"` contains a lawyer-referral term as
a whole word and no emergency keyword, yet `safe_answer` does not
return the referral message (the greeting check fires first). -/
theorem c3_counterexample_hi_lawyer :
    wants_lawyer "hi lawyer" = true ∧ is_emergency "hi lawyer" = false ∧
    safe_answer "hi lawyer" ≠ referralMessage := by
  refine ⟨by decide, by decide, ?_⟩
  have h : safe_answer "hi lawyer" = greetingMessage := by
    simp [safe_answer, show is_emergency "hi lawyer" = false from by decide,
      show is_greeting "hi lawyer" = true from by decide]
  rw [h]
  decide

/-- C3 (amended): for every input containing a lawyer-referral term as
a whole word, with no emergency keyword and no whole-word greeting
match, `safe_answer` returns the fixed referral message. -/
theorem c3_lawyer_referral_amended (q : String) (hl : wants_lawyer q = true)
    (he : is_emergency q = false) (hg : is_greeting q = false) :
    safe_answer q = referralMessage := by
  simp [safe_answer, hl, he, hg]

/-- Witness for the amended C3 at the concrete input `"lawyer"`. -/
theorem c3_lawyer_referral_amended_witness :
    safe_answer "lawyer" = referralMessage :=
  c3_lawyer_referral_amended "lawyer" (by decide) (by decide) (by decide)

/-- C2: for every input with no special intent, `safe_answer` returns
the best-matching entry's stored answer verbatim when the best
cosine-similarity score is at least 0.15, and the fixed low-confidence
fallback message when the best score is below 0.15. -/
theorem c2_retrieval_threshold (q : String) (he : is_emergency q = false)
    (hg : is_greeting q = false) (hl : wants_lawyer q = false) :
    ((best_match q).1 < 0.15 ∧ safe_answer q = fallbackMessage) ∨
    (0.15 ≤ (best_match q).1 ∧ safe_answer q = (best_match q).2.2) := by
  rcases lt_or_le ((best_match q).1) 0.15 with h | h
  · exact Or.inl ⟨h, by simp [safe_answer, he, hg, hl, h]⟩
  · exact Or.inr ⟨h, by simp [safe_answer, he, hg, hl, not_lt.mpr h]⟩

/-- Witness for C2 at the concrete intent-free input `"zzzz"`. -/
theorem c2_retrieval_threshold_witness :
    ((best_match "zzzz").1 < 0.15 ∧ safe_answer "zzzz" = fallbackMessage) ∨
    (0.15 ≤ (best_match "zzzz").1 ∧ safe_answer "zzzz" = (best_match "zzzz").2.2) :=
  c2_retrieval_threshold "zzzz" (by decide) (by decide) (by decide)

/-! ## The argmax scan (numpy `argmax`: first maximal index wins) -/

theorem amStep_le_left (f : ℕ → ℝ) (b j : ℕ) : f b ≤ f (amStep f b j) := by
  unfold amStep
  split_ifs with h
  · exact h.le
  · exact le_rfl

theorem amStep_le_right (f : ℕ → ℝ) (b j : ℕ) : f j ≤ f (amStep f b j) := by
  unfold amStep
  split_ifs with h
  · exact le_rfl
  · exact not_lt.mp h

theorem foldl_am_le_init (f : ℕ → ℝ) :
    ∀ (l : List ℕ) (b : ℕ), f b ≤ f (l.foldl (amStep f) b)
  | [], _ => le_rfl
  | a :: t, b =>
    le_trans (amStep_le_left f b a) (foldl_am_le_init f t (amStep f b a))

theorem foldl_am_le (f : ℕ → ℝ) :
    ∀ (l : List ℕ) (b j : ℕ), j ∈ l → f j ≤ f (l.foldl (amStep f) b)
  | [], _, _, h => absurd h (List.not_mem_nil _)
  | a :: t, b, j, h => by
    simp only [List.foldl_cons]
    rcases List.mem_cons.mp h with rfl | ht
    · exact le_trans (amStep_le_right f b j) (foldl_am_le_init f t _)
    · exact foldl_am_le f t _ j ht

theorem foldl_am_mem (f : ℕ → ℝ) :
    ∀ (l : List ℕ) (b : ℕ), l.foldl (amStep f) b = b ∨ l.foldl (amStep f) b ∈ l
  | [], _ => Or.inl rfl
  | a :: t, b => by
    simp only [List.foldl_cons]
    rcases foldl_am_mem f t (amStep f b a) with h | h
    · rw [h]
      unfold amStep
      split_ifs
      · exact Or.inr (List.mem_cons_self _ _)
      · exact Or.inl rfl
    · exact Or.inr (List.mem_cons_of_mem _ h)

theorem foldl_am_strict (f : ℕ → ℝ) :
    ∀ (l : List ℕ) (b : ℕ), l.foldl (amStep f) b ≠ b → f b < f (l.foldl (amStep f) b)
  | [], _, h => absurd rfl h
  | a :: t, b, h => by
    simp only [List.foldl_cons] at h ⊢
    by_cases hr : t.foldl (amStep f) (amStep f b a) = amStep f b a
    · rw [hr] at h ⊢
      revert h
      unfold amStep
      split_ifs with hba
      · exact fun _ => hba
      · exact fun hc => absurd rfl hc
    · exact lt_of_le_of_lt (amStep_le_left f b a) (foldl_am_strict f t (amStep f b a) hr)

theorem foldl_am_first (f : ℕ → ℝ) :
    ∀ (l : List ℕ) (b : ℕ), (∀ x ∈ l, b < x) → l.Pairwise (· < ·) →
      ∀ j, (j = b ∨ j ∈ l) → f (l.foldl (amStep f) b) ≤ f j → l.foldl (amStep f) b ≤ j
  | [], _, _, _, j, hj, _ => by
    rcases hj with rfl | h
    · exact le_rfl
    · exact absurd h (List.not_mem_nil _)
  | a :: t, b, hb, hp, j, hj, hle => by
    simp only [List.foldl_cons] at hle ⊢
    have hpt : t.Pairwise (· < ·) := (List.pairwise_cons.mp hp).2
    have hat : ∀ x ∈ t, a < x := (List.pairwise_cons.mp hp).1
    by_cases hba : f b < f a
    · have hs : amStep f b a = a := if_pos hba
      rw [hs] at hle ⊢
      rcases hj with hjb | hj2
      · exact absurd (lt_of_lt_of_le hba (foldl_am_le_init f t a)) (not_lt.mpr (hjb ▸ hle))
      · rcases List.mem_cons.mp hj2 with hja | hj3
        · rw [hja] at hle ⊢
          exact foldl_am_first f t a hat hpt a (Or.inl rfl) hle
        · exact foldl_am_first f t a hat hpt j (Or.inr hj3) hle
    · have hs : amStep f b a = b := if_neg hba
      rw [hs] at hle ⊢
      have hbt : ∀ x ∈ t, b < x := fun x hx => hb x (List.mem_cons_of_mem a hx)
      rcases hj with hjb | hj2
      · rw [hjb] at hle ⊢
        exact foldl_am_first f t b hbt hpt b (Or.inl rfl) hle
      · rcases List.mem_cons.mp hj2 with hja | hj3
        · have hfa : f (t.foldl (amStep f) b) ≤ f b :=
            le_trans (hja ▸ hle) (not_lt.mp hba)
          by_cases hr : t.foldl (amStep f) b = b
          · rw [hr, hja]
            exact (hb a (List.mem_cons_self _ _)).le
          · exact absurd (foldl_am_strict f t b hr) (not_lt.mpr hfa)
        · exact foldl_am_first f t b hbt hpt j (Or.inr hj3) hle

theorem docs_length : docs.length = 10 := rfl

theorem range_ten : List.range 10 = [0, 1, 2, 3, 4, 5, 6, 7, 8, 9] := by decide

theorem argmaxR_ten (f : ℕ → ℝ) :
    argmaxR f 10 = [1, 2, 3, 4, 5, 6, 7, 8, 9].foldl (amStep f) 0 := by
  unfold argmaxR
  rw [range_ten]
  simp only [List.foldl_cons]
  have h0 : amStep f 0 0 = 0 := if_neg (lt_irrefl _)
  rw [h0]

theorem bestIdx_lt (q : String) : bestIdx q < 10 := by
  unfold bestIdx
  rw [docs_length, argmaxR_ten]
  rcases foldl_am_mem (sims q) [1, 2, 3, 4, 5, 6, 7, 8, 9] 0 with h | h
  · rw [h]
    norm_num
  · simp only [List.mem_cons, List.not_mem_nil, or_false] at h
    omega

theorem sims_le_best (q : String) : ∀ j, j < 10 → sims q j ≤ sims q (bestIdx q) := by
  unfold bestIdx
  rw [docs_length, argmaxR_ten]
  intro j hj
  rcases Nat.eq_zero_or_pos j with rfl | hpos
  · exact foldl_am_le_init (sims q) [1, 2, 3, 4, 5, 6, 7, 8, 9] 0
  · refine foldl_am_le (sims q) [1, 2, 3, 4, 5, 6, 7, 8, 9] 0 j ?_
    interval_cases j <;> decide

theorem best_first (q : String) :
    ∀ j, j < 10 → sims q (bestIdx q) ≤ sims q j → bestIdx q ≤ j := by
  unfold bestIdx
  rw [docs_length, argmaxR_ten]
  intro j hj hle
  refine foldl_am_first (sims q) [1, 2, 3, 4, 5, 6, 7, 8, 9] 0 (by decide) (by decide) j ?_ hle
  rcases Nat.eq_zero_or_pos j with rfl | hpos
  · exact Or.inl rfl
  · refine Or.inr ?_
    interval_cases j <;> decide

theorem best_match_eq (q : String) :
    best_match q = (sims q (bestIdx q), KB.getD (bestIdx q) ("", "")) := rfl

theorem best_match_fst (q : String) : (best_match q).1 = sims q (bestIdx q) := by
  rw [best_match_eq]

/-- C5: `best_match` returns the knowledge-base entry whose
cosine-similarity score against the query is maximal, breaking ties in
favour of the lowest index, together with that score. -/
theorem c5_best_match_argmax (q : String) (j : ℕ) (hj : j < docs.length) :
    sims q j ≤ (best_match q).1 ∧
    (sims q j = (best_match q).1 → bestIdx q ≤ j) ∧
    best_match q = (sims q (bestIdx q), KB.getD (bestIdx q) ("", "")) := by
  rw [docs_length] at hj
  refine ⟨?_, fun h => best_first q j hj ?_, best_match_eq q⟩
  · rw [best_match_fst]
    exact sims_le_best q j hj
  · rw [best_match_fst] at h
    exact h.symm.le

/-- Witness for C5 at the concrete input `"hi"` and index `3`. -/
theorem c5_best_match_argmax_witness :
    sims "hi" 3 ≤ (best_match "hi").1 ∧
    (sims "hi" 3 = (best_match "hi").1 → bestIdx "hi" ≤ 3) ∧
    best_match "hi" = (sims "hi" (bestIdx "hi"), KB.getD (bestIdx "hi") ("", "")) :=
  c5_best_match_argmax "hi" 3 (by rw [docs_length]; norm_num)

/-! ## Cosine-similarity bounds (claim C6) -/

theorem df_le_length (dl : List String) (t : String) : df dl t ≤ dl.length := by
  unfold df
  exact le_of_le_of_eq (List.countP_le_length _) (List.length_range _)

theorem one_le_idf (dl : List String) (t : String) : 1 ≤ idf dl t := by
  unfold idf
  have hd : (df dl t : ℝ) ≤ (dl.length : ℝ) := Nat.cast_le.mpr (df_le_length dl t)
  have h1 : (1 : ℝ) ≤ (1 + (dl.length : ℝ)) / (1 + (df dl t : ℝ)) := by
    rw [le_div_iff₀ (by positivity)]
    linarith
  have := Real.log_nonneg h1
  linarith

theorem idf_nonneg (dl : List String) (t : String) : 0 ≤ idf dl t :=
  le_trans zero_le_one (one_le_idf dl t)

theorem rawDoc_nonneg (dl : List String) (i : ℕ) (t : String) : 0 ≤ rawDoc dl i t := by
  unfold rawDoc
  exact mul_nonneg (Nat.cast_nonneg _) (idf_nonneg dl t)

theorem rawQuery_nonneg (dl : List String) (q t : String) : 0 ≤ rawQuery dl q t := by
  unfold rawQuery
  exact mul_nonneg (Nat.cast_nonneg _) (idf_nonneg dl t)

theorem vecNorm_nonneg (dl : List String) (v : String → ℝ) : 0 ≤ vecNorm dl v :=
  Real.sqrt_nonneg _

theorem l2normalize_nonneg (dl : List String) (v : String → ℝ)
    (h : ∀ t, 0 ≤ v t) : ∀ t, 0 ≤ l2normalize dl v t := by
  intro t
  unfold l2normalize
  split_ifs
  · exact h t
  · exact div_nonneg (h t) (vecNorm_nonneg dl v)

theorem sum_sq_l2normalize_le_one (dl : List String) (v : String → ℝ) :
    ∑ t ∈ vocabOf dl, l2normalize dl v t ^ 2 ≤ 1 := by
  have hnn : 0 ≤ ∑ t ∈ vocabOf dl, v t ^ 2 :=
    Finset.sum_nonneg (fun t _ => sq_nonneg _)
  unfold l2normalize
  split_ifs with h
  · have h0 : ∑ t ∈ vocabOf dl, v t ^ 2 = 0 := by
      have hsq : vecNorm dl v ^ 2 = ∑ t ∈ vocabOf dl, v t ^ 2 := Real.sq_sqrt hnn
      rw [← hsq, h]
      norm_num
    rw [h0]
    norm_num
  · have hsq : vecNorm dl v ^ 2 = ∑ t ∈ vocabOf dl, v t ^ 2 := Real.sq_sqrt hnn
    have hcalc : ∑ t ∈ vocabOf dl, (v t / vecNorm dl v) ^ 2
        = (∑ t ∈ vocabOf dl, v t ^ 2) / vecNorm dl v ^ 2 := by
      simp only [div_pow]
      exact (Finset.sum_div _ _ _).symm
    rw [hcalc, ← hsq, div_self (pow_ne_zero 2 h)]

theorem dotVocab_nonneg (dl : List String) (u v : String → ℝ)
    (hu : ∀ t, 0 ≤ u t) (hv : ∀ t, 0 ≤ v t) : 0 ≤ dotVocab dl u v :=
  Finset.sum_nonneg (fun t _ => mul_nonneg (hu t) (hv t))

theorem dotVocab_le_one (dl : List String) (u v : String → ℝ)
    (hu1 : ∑ t ∈ vocabOf dl, u t ^ 2 ≤ 1) (hv1 : ∑ t ∈ vocabOf dl, v t ^ 2 ≤ 1) :
    dotVocab dl u v ≤ 1 := by
  unfold dotVocab
  calc ∑ t ∈ vocabOf dl, u t * v t
      ≤ Real.sqrt (∑ t ∈ vocabOf dl, u t ^ 2) * Real.sqrt (∑ t ∈ vocabOf dl, v t ^ 2) :=
        Real.sum_mul_le_sqrt_mul_sqrt _ _ _
    _ ≤ 1 := by
        have h1 : Real.sqrt (∑ t ∈ vocabOf dl, u t ^ 2) ≤ 1 := Real.sqrt_le_one.mpr hu1
        have h2 : Real.sqrt (∑ t ∈ vocabOf dl, v t ^ 2) ≤ 1 := Real.sqrt_le_one.mpr hv1
        exact mul_le_one₀ h1 (Real.sqrt_nonneg _) h2

theorem user_vec_nonneg (dl : List String) (q : String) : ∀ t, 0 ≤ user_vec dl q t := by
  unfold user_vec
  exact l2normalize_nonneg dl _ (rawQuery_nonneg dl q)

theorem kb_matrix_nonneg (i : ℕ) : ∀ t, 0 ≤ kb_matrix i t := by
  unfold kb_matrix kb_matrixOf
  exact l2normalize_nonneg docs _ (rawDoc_nonneg docs i)

theorem sims_nonneg (q : String) (i : ℕ) : 0 ≤ sims q i := by
  unfold sims simsWith cosineSim
  exact dotVocab_nonneg docs _ _
    (l2normalize_nonneg docs _ (user_vec_nonneg docs q))
    (l2normalize_nonneg docs _ (kb_matrix_nonneg i))

theorem sims_le_one (q : String) (i : ℕ) : sims q i ≤ 1 := by
  unfold sims simsWith cosineSim
  exact dotVocab_le_one docs _ _
    (sum_sq_l2normalize_le_one docs _) (sum_sq_l2normalize_le_one docs _)

/-- C6: for every query string, the confidence score returned by
`best_match` lies in the closed interval `[0, 1]`. -/
theorem c6_score_in_unit_interval (q : String) :
    0 ≤ (best_match q).1 ∧ (best_match q).1 ≤ 1 := by
  rw [best_match_fst]
  exact ⟨sims_nonneg q _, sims_le_one q _⟩

/-! ## Queries with no indexed term (zero similarity) -/

theorem sims_of_ngrams_nil (q : String) (h : ngrams q = []) (i : ℕ) : sims q i = 0 := by
  have hq : ∀ t, rawQuery docs q t = 0 := by
    intro t
    unfold rawQuery qcount
    rw [h]
    simp
  have hn : vecNorm docs (rawQuery docs q) = 0 := by
    unfold vecNorm
    rw [Finset.sum_eq_zero (fun t _ => by rw [hq t]; norm_num), Real.sqrt_zero]
  have huv : ∀ t, user_vec docs q t = 0 := by
    intro t
    unfold user_vec l2normalize
    rw [if_pos hn]
    exact hq t
  have hn2 : vecNorm docs (user_vec docs q) = 0 := by
    unfold vecNorm
    rw [Finset.sum_eq_zero (fun t _ => by rw [huv t]; norm_num), Real.sqrt_zero]
  have houter : ∀ t, l2normalize docs (user_vec docs q) t = 0 := by
    intro t
    unfold l2normalize
    rw [if_pos hn2]
    exact huv t
  unfold sims simsWith cosineSim dotVocab
  exact Finset.sum_eq_zero (fun t _ => by rw [houter t]; exact zero_mul _)

/-! ## Handler evaluation lemmas -/

theorem ask_some_obj (fields : List (String × Json)) :
    ask (some (.obj fields)) =
      match (getField fields "question").getD (.str "") with
      | .str q0 =>
        if (unescape (pyStrip q0)).isEmpty then Except.ok (200, promptMessage)
        else Except.ok (200, safe_answer (unescape (pyStrip q0)))
      | _ => Except.error () := by
  cases fields with
  | nil => rfl
  | cons a t => rfl

theorem ask_prompt_of_no_question (fields : List (String × Json))
    (h : getField fields "question" = none) :
    ask (some (.obj fields)) = Except.ok (200, promptMessage) := by
  rw [ask_some_obj, h]
  rfl

theorem ask_prompt_of_falsy (j : Json) (h : truthy j = false) :
    ask (some j) = Except.ok (200, promptMessage) := by
  simp only [ask, h]
  rfl

theorem ask_prompt_of_whitespace (fields : List (String × Json)) (q0 : String)
    (h : getField fields "question" = some (.str q0)) (hw : pyStrip q0 = "") :
    ask (some (.obj fields)) = Except.ok (200, promptMessage) := by
  rw [ask_some_obj, h]
  show (if (unescape (pyStrip q0)).isEmpty then _ else _) = _
  rw [hw]
  rfl

/-- C7 (amended): for every well-formed request body — unparseable,
falsy JSON, or an object whose `question` field (if present) is a
string — the handler returns HTTP 200 with a string answer, and the
answer is the fixed prompt whenever the body is unparseable or falsy,
the `question` field is missing, or the question strips to the empty
string (empty or whitespace-only). -/
theorem c7_handler_no_error_on_wf_bodies :
    (∀ b : Option Json, wfBody b = true → ∃ s : String, ask b = Except.ok (200, s)) ∧
    ask none = Except.ok (200, promptMessage) ∧
    (∀ j : Json, truthy j = false → ask (some j) = Except.ok (200, promptMessage)) ∧
    (∀ fields : List (String × Json), getField fields "question" = none →
      ask (some (.obj fields)) = Except.ok (200, promptMessage)) ∧
    (∀ (fields : List (String × Json)) (q0 : String),
      getField fields "question" = some (.str q0) → pyStrip q0 = "" →
      ask (some (.obj fields)) = Except.ok (200, promptMessage)) := by
  refine ⟨?_, rfl, ask_prompt_of_falsy, ask_prompt_of_no_question, ask_prompt_of_whitespace⟩
  intro b hb
  cases b with
  | none => exact ⟨promptMessage, rfl⟩
  | some j =>
    cases htj : truthy j with
    | false => exact ⟨promptMessage, ask_prompt_of_falsy j htj⟩
    | true =>
      cases j with
      | obj fields =>
        cases hq : getField fields "question" with
        | none => exact ⟨promptMessage, ask_prompt_of_no_question fields hq⟩
        | some v =>
          cases v with
          | str q0 =>
            by_cases he : (unescape (pyStrip q0)).isEmpty
            · refine ⟨promptMessage, ?_⟩
              rw [ask_some_obj, hq]
              show (if (unescape (pyStrip q0)).isEmpty then _ else _) = _
              rw [if_pos he]
            · refine ⟨safe_answer (unescape (pyStrip q0)), ?_⟩
              rw [ask_some_obj, hq]
              show (if (unescape (pyStrip q0)).isEmpty then _ else _) = _
              rw [if_neg he]
          | null => simp [wfBody, htj, hq] at hb
          | bool c => simp [wfBody, htj, hq] at hb
          | num n => simp [wfBody, htj, hq] at hb
          | arr l => simp [wfBody, htj, hq] at hb
          | obj f2 => simp [wfBody, htj, hq] at hb
      | null => simp [wfBody, htj] at hb
      | bool c => simp [wfBody, htj] at hb
      | num n => simp [wfBody, htj] at hb
      | str s => simp [wfBody, htj] at hb
      | arr l => simp [wfBody, htj] at hb

/-- C7 counterexample: a JSON body whose `question` value is the number
5 makes `payload.get("question").strip()` raise `AttributeError`, so
the handler produces an HTTP 500 error response, not a 200. -/
theorem c7_counterexample_nonstring_question :
    ask (some (.obj [("question", .num 5)])) = Except.error () := rfl

/-- C10: the body `{"question": "&#32;"}` passes the emptiness check
(stripping happens before `html.unescape`), so the handler does not
return the prompt: the unescaped single-space question reaches the
knowledge-base lookup and yields the low-confidence fallback. -/
theorem c10_entity_whitespace_skips_prompt :
    ask (some (.obj [("question", .str "&#32;")])) = Except.ok (200, fallbackMessage) ∧
    fallbackMessage ≠ promptMessage := by
  constructor
  · have hstep : ask (some (.obj [("question", .str "&#32;")]))
        = Except.ok (200, safe_answer " ") := rfl
    rw [hstep]
    have hsc : (best_match " ").1 = 0 := by
      rw [best_match_fst]
      exact sims_of_ngrams_nil " " (by decide) _
    have hsa : safe_answer " " = fallbackMessage := by
      unfold safe_answer
      rw [show is_emergency " " = false from by decide,
        show is_greeting " " = false from by decide,
        show wants_lawyer " " = false from by decide]
      simp only [Bool.false_eq_true, if_false]
      rw [hsc]
      norm_num
    rw [hsa]
  · decide

/-! ## Immutability of the knowledge base and index (claim C8) -/

/-- C8: every request-handling computation leaves the process state
(knowledge base and TF-IDF index) unchanged, requests compute against
the startup state, and the startup index is exactly the TF-IDF
derivation of the startup knowledge base. -/
theorem c8_state_immutable :
    (∀ (s : ServerState) (q : String), (safe_answerSt s q).2 = s) ∧
    (∀ q : String, (safe_answerSt initState q).1 = safe_answer q) ∧
    initState.matrix = kb_matrixOf (docsOf initState.kb) := by
  refine ⟨?_, ?_, rfl⟩
  · intro s q
    unfold safe_answerSt best_matchSt
    dsimp only
    split_ifs <;> rfl
  · intro q
    unfold safe_answerSt best_matchSt safe_answer best_match bestIdx sims
    dsimp only [initState]
    rw [show KB.length = docs.length from rfl]
    split_ifs <;> rfl

/-! ## The negligence query (claim C9)

For the input `"What is negligence?"` the analyzer produces the single
term `"negligence"`, which occurs in document 3 only (three times).
The query vector is therefore the unit vector at that term, every other
document scores 0, and document 3 scores `3·idf / ‖row₃‖`; the crude
bound `‖row₃‖² ≤ idf² · 3 · |doc₃|  ≤ (20·idf)²` already puts that
score at or above the 0.15 threshold. -/

theorem l2normalize_eq_of_norm_zero (dl : List String) (v : String → ℝ)
    (h : vecNorm dl v = 0) : l2normalize dl v = v := by
  unfold l2normalize
  rw [if_pos h]

theorem l2normalize_apply_of_norm_ne (dl : List String) (v : String → ℝ)
    (h : vecNorm dl v ≠ 0) (t : String) :
    l2normalize dl v t = v t / vecNorm dl v := by
  unfold l2normalize
  rw [if_neg h]

theorem sum_sq_l2normalize_eq_one (dl : List String) (v : String → ℝ)
    (h : vecNorm dl v ≠ 0) :
    ∑ t ∈ vocabOf dl, l2normalize dl v t ^ 2 = 1 := by
  have hnn : 0 ≤ ∑ t ∈ vocabOf dl, v t ^ 2 :=
    Finset.sum_nonneg (fun t _ => sq_nonneg _)
  have hsq : vecNorm dl v ^ 2 = ∑ t ∈ vocabOf dl, v t ^ 2 := Real.sq_sqrt hnn
  unfold l2normalize
  rw [if_neg h]
  have hcalc : ∑ t ∈ vocabOf dl, (v t / vecNorm dl v) ^ 2
      = (∑ t ∈ vocabOf dl, v t ^ 2) / vecNorm dl v ^ 2 := by
    simp only [div_pow]
    exact (Finset.sum_div _ _ _).symm
  rw [hcalc, ← hsq, div_self (pow_ne_zero 2 h)]

theorem vecNorm_l2normalize_of_norm_ne (dl : List String) (v : String → ℝ)
    (h : vecNorm dl v ≠ 0) : vecNorm dl (l2normalize dl v) = 1 := by
  unfold vecNorm
  rw [sum_sq_l2normalize_eq_one dl v h, Real.sqrt_one]

theorem l2normalize_zero_coord (dl : List String) (v : String → ℝ) (t : String)
    (h : v t = 0) : l2normalize dl v t = 0 := by
  unfold l2normalize
  split_ifs
  · exact h
  · show v t / vecNorm dl v = 0
    rw [h, zero_div]

theorem mem_vocabOf_of_mem_doc (dl : List String) (i : ℕ) (hi : i < dl.length)
    (t : String) (ht : t ∈ docNgrams dl i) : t ∈ vocabOf dl := by
  unfold vocabOf
  rw [List.mem_toFinset]
  exact List.mem_flatten.mpr
    ⟨docNgrams dl i, List.mem_map.mpr ⟨i, List.mem_range.mpr hi, rfl⟩, ht⟩

theorem one_le_df_of_mem_vocab (dl : List String) (t : String)
    (h : t ∈ vocabOf dl) : 1 ≤ df dl t := by
  unfold vocabOf at h
  rw [List.mem_toFinset] at h
  rcases List.mem_flatten.mp h with ⟨l, hl, htl⟩
  rcases List.mem_map.mp hl with ⟨i, hi, rfl⟩
  unfold df
  exact Nat.succ_le_of_lt (List.countP_pos_iff.mpr ⟨i, hi, List.elem_iff.mpr htl⟩)

theorem list_sum_count_eq (l : List String) :
    ∑ a ∈ l.toFinset, List.count a l = l.length := by
  simpa [Multiset.coe_count] using Multiset.toFinset_sum_count_eq (↑l : Multiset String)

/-! Structural facts about the analyzer: every unigram it produces is
an infix of the lowercased text, and every bigram contains a space.  A
space-free term that is not a substring of a document's lowercased text
is therefore not one of its n-grams — this settles "negligence is
absent from the other nine documents" by a cheap substring scan. -/

theorem ngrams_eq (s : String) :
    ngrams s = removeStop (tokenize s) ++ bigrams (removeStop (tokenize s)) := rfl

theorem prefixAt_complete : ∀ (n h : List Char), n <+: h → prefixAt n h = true
  | [], _, _ => rfl
  | a :: as, [], hp => absurd hp (by simp)
  | a :: as, b :: bs, hp => by
    rcases List.cons_prefix_cons.mp hp with ⟨rfl, hp2⟩
    unfold prefixAt
    rw [prefixAt_complete as bs hp2]
    simp

theorem substrAt_complete : ∀ (n h : List Char), n <:+: h → substrAt n h = true
  | n, [], hi => by
    rw [List.infix_nil] at hi
    subst hi
    rfl
  | n, b :: bs, hi => by
    unfold substrAt
    rcases List.infix_cons_iff.mp hi with hp | hi2
    · rw [prefixAt_complete n (b :: bs) hp]
      simp
    · rw [substrAt_complete n bs hi2]
      simp

theorem tokenRuns_subseg :
    ∀ (l acc : List Char), ∀ r ∈ tokenRuns l acc, r <:+: (acc.reverse ++ l)
  | [], acc, r, hr => by
    unfold tokenRuns at hr
    split_ifs at hr
    · exact absurd hr (List.not_mem_nil _)
    · rw [List.mem_singleton] at hr
      subst hr
      rw [List.append_nil]
  | c :: cs, acc, r, hr => by
    unfold tokenRuns at hr
    split_ifs at hr with h1 h2
    · have h := tokenRuns_subseg cs (c :: acc) r hr
      rw [List.reverse_cons, List.append_assoc] at h
      simpa using h
    · have h := tokenRuns_subseg cs [] r hr
      simp only [List.reverse_nil, List.nil_append] at h
      exact h.trans ((List.suffix_cons c cs).trans (List.suffix_append _ _)).isInfix
    · rcases List.mem_cons.mp hr with rfl | hr2
      · exact (List.prefix_append acc.reverse (c :: cs)).isInfix
      · have h := tokenRuns_subseg cs [] r hr2
        simp only [List.reverse_nil, List.nil_append] at h
        exact h.trans ((List.suffix_cons c cs).trans (List.suffix_append _ _)).isInfix

theorem mem_tokenize_subseg (s t : String) (ht : t ∈ tokenize s) :
    t.data <:+: (lowerStr s).data := by
  unfold tokenize at ht
  rcases List.mem_map.mp ht with ⟨u, hu, rfl⟩
  have hu2 : u ∈ tokenRuns (lowerStr s).data [] := List.mem_of_mem_filter hu
  have h := tokenRuns_subseg (lowerStr s).data [] u hu2
  simpa using h

theorem bigrams_space : ∀ (ts : List String) (x : String), x ∈ bigrams ts → ' ' ∈ x.data
  | [], x, hx => absurd hx (by simp [bigrams])
  | [a], x, hx => absurd hx (by simp [bigrams])
  | a :: b :: rest, x, hx => by
    unfold bigrams at hx
    rcases List.mem_cons.mp hx with rfl | hx2
    · rw [String.data_append, String.data_append]
      refine List.mem_append.mpr (Or.inl (List.mem_append.mpr (Or.inr ?_)))
      decide
    · exact bigrams_space (b :: rest) x hx2

theorem not_mem_ngrams_of_no_substr (s t : String) (hsp : ' ' ∉ t.data)
    (hsub : substrOf t (lowerStr s) = false) : t ∉ ngrams s := by
  intro hmem
  rw [ngrams_eq] at hmem
  rcases List.mem_append.mp hmem with h1 | h2
  · unfold removeStop at h1
    have h3 : t ∈ tokenize s := List.mem_of_mem_filter h1
    have h4 := substrAt_complete t.data (lowerStr s).data (mem_tokenize_subseg s t h3)
    unfold substrOf at hsub
    rw [hsub] at h4
    cases h4
  · exact hsp (bigrams_space _ t h2)


theorem neg_not_mem_doc : ∀ i < 10, i ≠ 3 → "negligence" ∉ docNgrams docs i := by
  intro i hi hne
  have hsub : substrOf "negligence" (lowerStr (docs.getD i "")) = false := by
    interval_cases i
    · decide
    · decide
    · decide
    · exact absurd rfl hne
    · decide
    · decide
    · decide
    · decide
    · decide
    · decide
  exact not_mem_ngrams_of_no_substr (docs.getD i "") "negligence" (by decide) hsub

theorem tf_neg_zero : ∀ i < 10, i ≠ 3 → tf docs i "negligence" = 0 := by
  intro i hi hne
  unfold tf
  exact List.count_eq_zero_of_not_mem (neg_not_mem_doc i hi hne)

/-! Concrete evaluations, staged through literal token lists so that
each pipeline stage is reduced by the kernel exactly once. -/

theorem tokenize_q9 : tokenize "What is negligence?" = ["what", "is", "negligence"] := by
  rfl

theorem removeStop_q9 : removeStop ["what", "is", "negligence"] = ["negligence"] := by
  rfl

theorem ngrams_q9 : ngrams "What is negligence?" = ["negligence"] := by
  rw [ngrams_eq, tokenize_q9, removeStop_q9]
  rfl

theorem tokenize_doc3 : tokenize (docs.getD 3 "") =
    ["what", "is", "negligence", "negligence", "is", "failure", "to", "exercise",
     "reasonable", "care", "resulting", "in", "damage", "or", "injury", "to",
     "another", "negligence", "claim", "typically", "requires", "duty", "breach",
     "causation", "and", "damages"] := by
  rfl

theorem removeStop_doc3 :
    removeStop ["what", "is", "negligence", "negligence", "is", "failure", "to",
      "exercise", "reasonable", "care", "resulting", "in", "damage", "or",
      "injury", "to", "another", "negligence", "claim", "typically", "requires",
      "duty", "breach", "causation", "and", "damages"] =
    ["negligence", "negligence", "failure", "exercise", "reasonable", "care",
     "resulting", "damage", "injury", "negligence", "claim", "typically",
     "requires", "duty", "breach", "causation", "damages"] := by
  rfl

theorem doc3_eval : docNgrams docs 3 =
    ["negligence", "negligence", "failure", "exercise", "reasonable", "care",
     "resulting", "damage", "injury", "negligence", "claim", "typically",
     "requires", "duty", "breach", "causation", "damages",
     "negligence negligence", "negligence failure", "failure exercise",
     "exercise reasonable", "reasonable care", "care resulting",
     "resulting damage", "damage injury", "injury negligence",
     "negligence claim", "claim typically", "typically requires",
     "requires duty", "duty breach", "breach causation", "causation damages"] := by
  show ngrams (docs.getD 3 "") = _
  rw [ngrams_eq, tokenize_doc3, removeStop_doc3]
  rfl

theorem neg_mem_doc3 : "negligence" ∈ docNgrams docs 3 := by
  rw [doc3_eval]
  decide

theorem tf3_neg : tf docs 3 "negligence" = 3 := by
  unfold tf
  rw [doc3_eval]
  rfl

theorem doc3_counts_le :
    ∀ x ∈ docNgrams docs 3, List.count x (docNgrams docs 3) ≤ 3 := by
  rw [doc3_eval]
  decide

theorem doc3_len_le : 3 * (docNgrams docs 3).length ≤ 399 := by
  rw [doc3_eval]
  decide

theorem contains_neg_false :
    ∀ i < 10, i ≠ 3 → ((docNgrams docs i).contains "negligence") = false := by
  intro i hi hne
  rw [Bool.eq_false_iff]
  intro hc
  exact neg_not_mem_doc i hi hne (List.elem_iff.mp hc)

theorem df_neg : df docs "negligence" = 1 := by
  unfold df
  rw [docs_length, range_ten]
  have h3 : ((docNgrams docs 3).contains "negligence") = true :=
    List.elem_iff.mpr neg_mem_doc3
  simp only [List.countP_cons, List.countP_nil, h3,
    contains_neg_false 0 (by norm_num) (by norm_num),
    contains_neg_false 1 (by norm_num) (by norm_num),
    contains_neg_false 2 (by norm_num) (by norm_num),
    contains_neg_false 4 (by norm_num) (by norm_num),
    contains_neg_false 5 (by norm_num) (by norm_num),
    contains_neg_false 6 (by norm_num) (by norm_num),
    contains_neg_false 7 (by norm_num) (by norm_num),
    contains_neg_false 8 (by norm_num) (by norm_num),
    contains_neg_false 9 (by norm_num) (by norm_num)]
  norm_num

theorem neg_mem_vocab : "negligence" ∈ vocabOf docs :=
  mem_vocabOf_of_mem_doc docs 3 (by rw [docs_length]; norm_num) _ neg_mem_doc3

theorem idf_le_idf_neg (t : String) (ht : t ∈ vocabOf docs) :
    idf docs t ≤ idf docs "negligence" := by
  have h1 : 1 ≤ df docs t := one_le_df_of_mem_vocab docs t ht
  unfold idf
  rw [df_neg]
  have hd : (1 : ℝ) + 1 ≤ 1 + (df docs t : ℝ) := by
    have : (1 : ℝ) ≤ (df docs t : ℝ) := by exact_mod_cast h1
    linarith
  have hlog : Real.log ((1 + (docs.length : ℝ)) / (1 + (df docs t : ℝ)))
      ≤ Real.log ((1 + (docs.length : ℝ)) / (1 + (1 : ℕ))) := by
    apply Real.log_le_log (by positivity)
    push_cast
    exact div_le_div_of_nonneg_left (by positivity) (by norm_num) hd
  linarith

theorem sum_tf3_sq_le :
    ∑ t ∈ vocabOf docs, ((tf docs 3 t : ℝ)) ^ 2 ≤ 399 := by
  have hn : ∑ t ∈ vocabOf docs, tf docs 3 t ^ 2 ≤ 399 := by
    unfold tf
    have hsub : (docNgrams docs 3).toFinset ⊆ vocabOf docs := fun t ht =>
      mem_vocabOf_of_mem_doc docs 3 (by rw [docs_length]; norm_num) t
        (List.mem_toFinset.mp ht)
    have hzero : ∀ x ∈ vocabOf docs, x ∉ (docNgrams docs 3).toFinset →
        List.count x (docNgrams docs 3) ^ 2 = 0 := by
      intro x hx hnx
      rw [List.count_eq_zero_of_not_mem (fun hm => hnx (List.mem_toFinset.mpr hm))]
      norm_num
    have heq := Finset.sum_subset hsub
      (f := fun x => List.count x (docNgrams docs 3) ^ 2) hzero
    rw [← heq]
    calc ∑ t ∈ (docNgrams docs 3).toFinset, List.count t (docNgrams docs 3) ^ 2
        ≤ ∑ t ∈ (docNgrams docs 3).toFinset, 3 * List.count t (docNgrams docs 3) :=
          Finset.sum_le_sum (fun t ht => by
            rw [pow_two]
            exact mul_le_mul_right' (doc3_counts_le t (List.mem_toFinset.mp ht)) _)
      _ = 3 * ∑ t ∈ (docNgrams docs 3).toFinset, List.count t (docNgrams docs 3) := by
          rw [Finset.mul_sum]
      _ = 3 * (docNgrams docs 3).length := by rw [list_sum_count_eq]
      _ ≤ 399 := doc3_len_le
  calc ∑ t ∈ vocabOf docs, ((tf docs 3 t : ℝ)) ^ 2
      = ((∑ t ∈ vocabOf docs, tf docs 3 t ^ 2 : ℕ) : ℝ) := by push_cast; rfl
    _ ≤ 399 := by exact_mod_cast hn

theorem vecNorm_doc3_le :
    vecNorm docs (rawDoc docs 3) ≤ 20 * idf docs "negligence" := by
  have hA : 1 ≤ idf docs "negligence" := one_le_idf docs "negligence"
  have hsum : ∑ t ∈ vocabOf docs, rawDoc docs 3 t ^ 2
      ≤ 400 * idf docs "negligence" ^ 2 := by
    have h1 : ∀ t ∈ vocabOf docs,
        rawDoc docs 3 t ^ 2 ≤ (tf docs 3 t : ℝ) ^ 2 * idf docs "negligence" ^ 2 := by
      intro t ht
      unfold rawDoc
      rw [mul_pow]
      have h2 : idf docs t ^ 2 ≤ idf docs "negligence" ^ 2 :=
        pow_le_pow_left₀ (idf_nonneg docs t) (idf_le_idf_neg t ht) 2
      exact mul_le_mul_of_nonneg_left h2 (by positivity)
    calc ∑ t ∈ vocabOf docs, rawDoc docs 3 t ^ 2
        ≤ ∑ t ∈ vocabOf docs, (tf docs 3 t : ℝ) ^ 2 * idf docs "negligence" ^ 2 :=
          Finset.sum_le_sum h1
      _ = (∑ t ∈ vocabOf docs, (tf docs 3 t : ℝ) ^ 2) * idf docs "negligence" ^ 2 :=
          (Finset.sum_mul _ _ _).symm
      _ ≤ 399 * idf docs "negligence" ^ 2 :=
          mul_le_mul_of_nonneg_right sum_tf3_sq_le (sq_nonneg _)
      _ ≤ 400 * idf docs "negligence" ^ 2 := by nlinarith [sq_nonneg (idf docs "negligence")]
  have h400 : (400 : ℝ) * idf docs "negligence" ^ 2
      = (20 * idf docs "negligence") ^ 2 := by ring
  unfold vecNorm
  calc Real.sqrt (∑ t ∈ vocabOf docs, rawDoc docs 3 t ^ 2)
      ≤ Real.sqrt (400 * idf docs "negligence" ^ 2) := Real.sqrt_le_sqrt hsum
    _ = 20 * idf docs "negligence" := by
        rw [h400, Real.sqrt_sq (by positivity)]

theorem vecNorm_doc3_lb :
    3 * idf docs "negligence" ≤ vecNorm docs (rawDoc docs 3) := by
  have hval : rawDoc docs 3 "negligence" = 3 * idf docs "negligence" := by
    unfold rawDoc
    rw [tf3_neg]
    push_cast
    ring
  have h1 : (3 * idf docs "negligence") ^ 2 ≤ ∑ t ∈ vocabOf docs, rawDoc docs 3 t ^ 2 := by
    have hs : rawDoc docs 3 "negligence" ^ 2 ≤ ∑ t ∈ vocabOf docs, rawDoc docs 3 t ^ 2 :=
      Finset.single_le_sum (f := fun t => rawDoc docs 3 t ^ 2)
        (fun t _ => sq_nonneg _) neg_mem_vocab
    rw [hval] at hs
    exact hs
  have h2 : Real.sqrt ((3 * idf docs "negligence") ^ 2)
      ≤ Real.sqrt (∑ t ∈ vocabOf docs, rawDoc docs 3 t ^ 2) := Real.sqrt_le_sqrt h1
  have h3 : Real.sqrt ((3 * idf docs "negligence") ^ 2) = 3 * idf docs "negligence" :=
    Real.sqrt_sq (by linarith [one_le_idf docs "negligence"])
  unfold vecNorm
  rw [← h3]
  exact h2

theorem vecNorm_doc3_pos : 0 < vecNorm docs (rawDoc docs 3) := by
  have hA : 1 ≤ idf docs "negligence" := one_le_idf docs "negligence"
  have : (0 : ℝ) < 3 * idf docs "negligence" := by linarith
  exact lt_of_lt_of_le this vecNorm_doc3_lb

theorem kb3_neg_val : kb_matrix 3 "negligence"
    = 3 * idf docs "negligence" / vecNorm docs (rawDoc docs 3) := by
  unfold kb_matrix kb_matrixOf
  rw [l2normalize_apply_of_norm_ne docs _ (ne_of_gt vecNorm_doc3_pos)]
  have hval : rawDoc docs 3 "negligence" = 3 * idf docs "negligence" := by
    unfold rawDoc
    rw [tf3_neg]
    push_cast
    ring
  rw [hval]

theorem kb3_neg_ge : 0.15 ≤ kb_matrix 3 "negligence" := by
  rw [kb3_neg_val]
  have hA : 1 ≤ idf docs "negligence" := one_le_idf docs "negligence"
  have hub := vecNorm_doc3_le
  rw [le_div_iff₀ vecNorm_doc3_pos]
  nlinarith [hub, hA]

theorem kb_neg_zero (i : ℕ) (hi : i < 10) (hne : i ≠ 3) :
    kb_matrix i "negligence" = 0 := by
  unfold kb_matrix kb_matrixOf
  apply l2normalize_zero_coord
  unfold rawDoc
  rw [tf_neg_zero i hi hne]
  norm_num

theorem rawQuery_q9 (t : String) : rawQuery docs "What is negligence?" t
    = if t = "negligence" then idf docs "negligence" else 0 := by
  unfold rawQuery qcount
  rw [ngrams_q9]
  by_cases ht : t = "negligence"
  · subst ht
    simp [List.count_singleton]
  · rw [if_neg ht, List.count_eq_zero_of_not_mem (by simp [ht])]
    norm_num

theorem vecNorm_q9 :
    vecNorm docs (rawQuery docs "What is negligence?") = idf docs "negligence" := by
  unfold vecNorm
  have hsum : ∑ t ∈ vocabOf docs, rawQuery docs "What is negligence?" t ^ 2
      = idf docs "negligence" ^ 2 := by
    rw [Finset.sum_eq_single_of_mem "negligence" neg_mem_vocab ?_]
    · rw [rawQuery_q9, if_pos rfl]
    · intro b hb hne
      rw [rawQuery_q9, if_neg hne]
      norm_num
  rw [hsum, Real.sqrt_sq (idf_nonneg docs _)]

theorem user_vec_q9 (t : String) : user_vec docs "What is negligence?" t
    = if t = "negligence" then 1 else 0 := by
  have hA : idf docs "negligence" ≠ 0 := by
    have := one_le_idf docs "negligence"
    linarith
  unfold user_vec
  rw [l2normalize_apply_of_norm_ne docs _ (by rw [vecNorm_q9]; exact hA),
    vecNorm_q9, rawQuery_q9]
  split_ifs
  · exact div_self hA
  · exact zero_div _

theorem vecNorm_user_q9 :
    vecNorm docs (user_vec docs "What is negligence?") = 1 := by
  unfold vecNorm
  have hsum : ∑ t ∈ vocabOf docs, user_vec docs "What is negligence?" t ^ 2 = 1 := by
    rw [Finset.sum_eq_single_of_mem "negligence" neg_mem_vocab ?_]
    · rw [user_vec_q9, if_pos rfl]
      norm_num
    · intro b hb hne
      rw [user_vec_q9, if_neg hne]
      norm_num
  rw [hsum, Real.sqrt_one]

theorem sims_q9 (i : ℕ) : sims "What is negligence?" i
    = l2normalize docs (kb_matrix i) "negligence" := by
  have hone : vecNorm docs (user_vec docs "What is negligence?") ≠ 0 := by
    rw [vecNorm_user_q9]
    norm_num
  unfold sims simsWith cosineSim dotVocab
  rw [Finset.sum_eq_single_of_mem "negligence" neg_mem_vocab ?_]
  · rw [l2normalize_apply_of_norm_ne docs _ hone, vecNorm_user_q9, user_vec_q9,
      if_pos rfl]
    simp
  · intro b hb hne
    rw [l2normalize_apply_of_norm_ne docs _ hone, vecNorm_user_q9, user_vec_q9,
      if_neg hne]
    simp

theorem sims_q9_doc3 : 0.15 ≤ sims "What is negligence?" 3 := by
  rw [sims_q9]
  have hN : vecNorm docs (rawDoc docs 3) ≠ 0 := ne_of_gt vecNorm_doc3_pos
  have h1 : vecNorm docs (kb_matrix 3) = 1 := by
    unfold kb_matrix kb_matrixOf
    exact vecNorm_l2normalize_of_norm_ne docs _ hN
  rw [l2normalize_apply_of_norm_ne docs _ (by rw [h1]; norm_num), h1, div_one]
  exact kb3_neg_ge

theorem sims_q9_other (i : ℕ) (hi : i < 10) (hne : i ≠ 3) :
    sims "What is negligence?" i = 0 := by
  rw [sims_q9]
  exact l2normalize_zero_coord docs _ _ (kb_neg_zero i hi hne)

theorem bestIdx_q9 : bestIdx "What is negligence?" = 3 := by
  by_contra hne
  have hlt := bestIdx_lt "What is negligence?"
  have h0 : sims "What is negligence?" (bestIdx "What is negligence?") = 0 :=
    sims_q9_other _ hlt hne
  have h3 : sims "What is negligence?" 3
      ≤ sims "What is negligence?" (bestIdx "What is negligence?") :=
    sims_le_best "What is negligence?" 3 (by norm_num)
  have h15 := sims_q9_doc3
  rw [h0] at h3
  linarith

theorem score_q9 : 0.15 ≤ (best_match "What is negligence?").1 := by
  rw [best_match_fst, bestIdx_q9]
  exact sims_q9_doc3

/-- C9: for the input `"What is negligence?"`, `safe_answer` returns
exactly the stored answer of the negligence knowledge-base entry: that
entry (index 3) is the best match and its similarity score is at least
0.15. -/
theorem c9_negligence_query_verbatim :
    safe_answer "What is negligence?" =
      "Negligence is a failure to exercise reasonable care, resulting in damage or injury to another. A negligence claim typically requires duty, breach, causation, and damages." ∧
    bestIdx "What is negligence?" = 3 ∧
    0.15 ≤ (best_match "What is negligence?").1 := by
  refine ⟨?_, bestIdx_q9, score_q9⟩
  unfold safe_answer
  rw [show is_emergency "What is negligence?" = false from by decide,
    show is_greeting "What is negligence?" = false from by decide,
    show wants_lawyer "What is negligence?" = false from by decide]
  simp only [Bool.false_eq_true, if_false]
  rw [if_neg (not_lt.mpr score_q9), best_match_eq, bestIdx_q9]
  rfl

end LegalBot
